import Mathlib

/-!
Verification of the teos10 repository (Gibbs-energy functions for pure water and
seawater, IAPWS-08 / IAPWS-09) against its natural-language specification.

Embedding conventions:
* Python floats are idealised as real numbers; the coefficient tables are decimal
  literals, which are exact rationals in both worlds.
* `jax.grad` (the external differentiation collaborator) is modelled as the exact
  mathematical derivative `deriv`, as the specification's collaborator contract
  requires ("the exact partial (or mixed-partial) derivative at a point").
* The one claim that is intrinsically about IEEE semantics (the value of
  `0 ** 2 * log 0` at zero salinity) is settled in an explicit IEEE-style value
  domain `FVal` with signed infinities and NaN, defined below.
* The constants module consumed by `gibbs.py` and `properties.py` (attribute names
  `dbar_to_Pa`, `temperature_zero`, ..., `gas_constant`, `salt_mass`) is not present
  under `src/` (the `constants.py` there is a stale revision with the names `pnorm`,
  `pstar`, `tzero`, `tstar`, `snorm`, `sstar` but identical values); the missing
  module is modelled from the spec, section 4.1.
-/

namespace Teos10

/-- Modelled from the spec: the Constants component ("fixed physical/reducing
constants"), with the attribute names used by `gibbs.py` and `properties.py`.
Values are those of spec section 4.1; the six reducing constants coincide with the
values in the stale `src/teos10/constants.py` (`pnorm`, `pstar`, `tzero`, `tstar`,
`snorm`, `sstar`). Pressure-to-Pa conversion factor: dbar to Pa. -/
def dbar_to_Pa : ℚ := 10 ^ 4

/-- Modelled from the spec: normal pressure P_n = 101 325 Pa. -/
def pressure_n : ℚ := 101325

/-- Modelled from the spec: reducing pressure P_ref = 10^8 Pa. -/
def pressure_st : ℚ := 10 ^ 8

/-- Modelled from the spec: Celsius zero point T0 = 273.15 K. -/
def temperature_zero : ℚ := 273.15

/-- Modelled from the spec: reducing temperature Tref = 40 K. -/
def temperature_st : ℚ := 40

/-- Modelled from the spec: salinity conversion g/kg to kg/kg. -/
def salinity_to_salt : ℚ := 0.001

/-- Modelled from the spec: normal salinity 0.03516504 kg/kg. -/
def salinity_n : ℚ := 0.03516504

/-- Modelled from the spec: reducing salinity S_ref = 0.03516504 * 40 / 35 kg/kg. -/
def salinity_st : ℚ := salinity_n * 40 / 35

/-- Modelled from the spec: molar gas constant (J / (mol K)); the spec names it in
the Constants component without a numeric value, so the CODATA value is used.  Its
precise value is irrelevant to every claim below (it only ever needs to be
positive). -/
def gas_constant : ℚ := 8.314462618

/-- Modelled from the spec: mean molar mass of sea salt (kg / mol); the spec names
it in the Constants component without a numeric value, so the TEOS-10 value is
used.  Its precise value is irrelevant to every claim below (it only ever needs to
be positive). -/
def salt_mass : ℚ := 0.0314038218

/-- Coefficients of the pure-water Gibbs function, IAPWS09 Table 2, transcribed
from the `Gdict` literal of `gibbs.water` in source order.  Keys are
(temperature power j, pressure power k). -/
noncomputable def waterCoeffs : List ((Nat × Nat) × ℝ) := [
  ((0, 0), 0.101342743139674 * 10 ^ 3),
  ((3, 2), 0.499360390819152 * 10 ^ 3),
  ((0, 1), 0.100015695367145 * 10 ^ 6),
  ((3, 3), -0.239545330654412 * 10 ^ 3),
  ((0, 2), -0.254457654203630 * 10 ^ 4),
  ((3, 4), 0.488012518593872 * 10 ^ 2),
  ((0, 3), 0.284517778446287 * 10 ^ 3),
  ((3, 5), -0.166307106208905 * 10 ^ 1),
  ((0, 4), -0.333146754253611 * 10 ^ 2),
  ((4, 0), -0.148185936433658 * 10 ^ 3),
  ((0, 5), 0.420263108803084 * 10 ^ 1),
  ((4, 1), 0.397968445406972 * 10 ^ 3),
  ((0, 6), -0.546428511471039),
  ((4, 2), -0.301815380621876 * 10 ^ 3),
  ((1, 0), 0.590578347909402 * 10 ^ 1),
  ((4, 3), 0.152196371733841 * 10 ^ 3),
  ((1, 1), -0.270983805184062 * 10 ^ 3),
  ((4, 4), -0.263748377232802 * 10 ^ 2),
  ((1, 2), 0.776153611613101 * 10 ^ 3),
  ((5, 0), 0.580259125842571 * 10 ^ 2),
  ((1, 3), -0.196512550881220 * 10 ^ 3),
  ((5, 1), -0.194618310617595 * 10 ^ 3),
  ((1, 4), 0.289796526294175 * 10 ^ 2),
  ((5, 2), 0.120520654902025 * 10 ^ 3),
  ((1, 5), -0.213290083518327 * 10 ^ 1),
  ((5, 3), -0.552723052340152 * 10 ^ 2),
  ((2, 0), -0.123577859330390 * 10 ^ 5),
  ((5, 4), 0.648190668077221 * 10 ^ 1),
  ((2, 1), 0.145503645404680 * 10 ^ 4),
  ((6, 0), -0.189843846514172 * 10 ^ 2),
  ((2, 2), -0.756558385769359 * 10 ^ 3),
  ((6, 1), 0.635113936641785 * 10 ^ 2),
  ((2, 3), 0.273479662323528 * 10 ^ 3),
  ((6, 2), -0.222897317140459 * 10 ^ 2),
  ((2, 4), -0.555604063817218 * 10 ^ 2),
  ((6, 3), 0.817060541818112 * 10 ^ 1),
  ((2, 5), 0.434420671917197 * 10 ^ 1),
  ((7, 0), 0.305081646487967 * 10 ^ 1),
  ((3, 0), 0.736741204151612 * 10 ^ 3),
  ((7, 1), -0.963108119393062 * 10 ^ 1),
  ((3, 1), -0.672507783145070 * 10 ^ 3)
]

/-- Gibbs energy of pure water in J/kg, embedding `gibbs.water`.  Temperature in K,
pressure in dbar.  The Python loop sums `Gdict[(j, k)] * ctau ** j * cpi ** k` over
the keys present in the table; in exact arithmetic this equals the sum over the
table list (absent keys contribute nothing). -/
noncomputable def water (temperature pressure : ℝ) : ℝ :=
  let pressure_Pa := pressure * (dbar_to_Pa : ℝ)
  let ctau := (temperature - (temperature_zero : ℝ)) / (temperature_st : ℝ)
  let cpi := (pressure_Pa - (pressure_n : ℝ)) / (pressure_st : ℝ)
  (waterCoeffs.map (fun e => e.2 * ctau ^ e.1.1 * cpi ^ e.1.2)).sum

/-- Spec-side restatement of `gibbs_water` for claim C1, written from the spec's
words alone: the IAPWS-09 polynomial evaluated at reduced coordinates
ctau = (T - 273.15) / 40 and cpi = (P * 10^4 - 101325) / 10^8. -/
noncomputable def gibbs_water_spec (temperature pressure : ℝ) : ℝ :=
  (waterCoeffs.map (fun e =>
    e.2 * ((temperature - 273.15) / 40) ^ e.1.1
        * ((pressure * 10 ^ 4 - 101325) / 10 ^ 8) ^ e.1.2)).sum

/-- Result triple of the validity checker, embedding the `GibbsValidity` namedtuple
of `gibbs.py` (fields `total`, `temperature`, `pressure`). -/
structure GibbsValidity where
  total : Bool
  temperature : Bool
  pressure : Bool
  deriving DecidableEq, Repr

/-- Validity checker for input temperature (K) and pressure (dbar), embedding
`gibbs.validity`.  Never raises: it is a total function into three booleans. -/
def validity (temperature pressure : ℚ) : GibbsValidity :=
  let pressure_Pa := pressure * dbar_to_Pa
  let vt := decide (270.5 - pressure_Pa * 7.43e-8 < temperature) && decide (temperature ≤ 313.15)
  let vp := decide (100 ≤ pressure_Pa) && decide (pressure_Pa ≤ 1e8)
  ⟨vt && vp, vt, vp⟩

/-- Coefficients of the saline part of the Gibbs function, IAPWS08 Table 2,
transcribed from the `Gdict` literal of `gibbs.salt` in source order.  Keys are
(salinity power i, temperature power j, pressure power k). -/
noncomputable def saltCoeffs : List ((Nat × Nat × Nat) × ℝ) := [
  ((1, 0, 0), 0.581281456626732 * 10 ^ 4),
  ((2, 2, 1), -0.860764303783977 * 10 ^ 3),
  ((2, 0, 0), 0.141627648484197 * 10 ^ 4),
  ((3, 2, 1), 0.383058066002476 * 10 ^ 3),
  ((3, 0, 0), -0.243214662381794 * 10 ^ 4),
  ((2, 3, 1), 0.694244814133268 * 10 ^ 3),
  ((4, 0, 0), 0.202580115603697 * 10 ^ 4),
  ((3, 3, 1), -0.460319931801257 * 10 ^ 3),
  ((5, 0, 0), -0.109166841042967 * 10 ^ 4),
  ((2, 4, 1), -0.297728741987187 * 10 ^ 3),
  ((6, 0, 0), 0.374601237877840 * 10 ^ 3),
  ((3, 4, 1), 0.234565187611355 * 10 ^ 3),
  ((7, 0, 0), -0.485891069025409 * 10 ^ 2),
  ((2, 0, 2), 0.384794152978599 * 10 ^ 3),
  ((1, 1, 0), 0.851226734946706 * 10 ^ 3),
  ((3, 0, 2), -0.522940909281335 * 10 ^ 2),
  ((2, 1, 0), 0.168072408311545 * 10 ^ 3),
  ((4, 0, 2), -0.408193978912261 * 10 ^ 1),
  ((2, 1, 2), -0.343956902961561 * 10 ^ 3),
  ((3, 1, 0), -0.493407510141682 * 10 ^ 3),
  ((4, 1, 0), 0.543835333000098 * 10 ^ 3),
  ((3, 1, 2), 0.831923927801819 * 10 ^ 2),
  ((5, 1, 0), -0.196028306689776 * 10 ^ 3),
  ((2, 2, 2), 0.337409530269367 * 10 ^ 3),
  ((6, 1, 0), 0.367571622995805 * 10 ^ 2),
  ((3, 2, 2), -0.541917262517112 * 10 ^ 2),
  ((2, 2, 0), 0.880031352997204 * 10 ^ 3),
  ((2, 3, 2), -0.204889641964903 * 10 ^ 3),
  ((3, 2, 0), -0.430664675978042 * 10 ^ 2),
  ((2, 4, 2), 0.747261411387560 * 10 ^ 2),
  ((4, 2, 0), -0.685572509204491 * 10 ^ 2),
  ((2, 0, 3), -0.965324320107458 * 10 ^ 2),
  ((2, 3, 0), -0.225267649263401 * 10 ^ 3),
  ((3, 0, 3), 0.680444942726459 * 10 ^ 2),
  ((3, 3, 0), -0.100227370861875 * 10 ^ 2),
  ((4, 0, 3), -0.301755111971161 * 10 ^ 2),
  ((4, 3, 0), 0.493667694856254 * 10 ^ 2),
  ((2, 1, 3), 0.124687671116248 * 10 ^ 3),
  ((2, 4, 0), 0.914260447751259 * 10 ^ 2),
  ((3, 1, 3), -0.294830643494290 * 10 ^ 2),
  ((3, 4, 0), 0.875600661808945),
  ((2, 2, 3), -0.178314556207638 * 10 ^ 3),
  ((4, 4, 0), -0.171397577419788 * 10 ^ 2),
  ((3, 2, 3), 0.256398487389914 * 10 ^ 2),
  ((2, 5, 0), -0.216603240875311 * 10 ^ 2),
  ((2, 3, 3), 0.113561697840594 * 10 ^ 3),
  ((4, 5, 0), 0.249697009569508 * 10 ^ 1),
  ((2, 4, 3), -0.364872919001588 * 10 ^ 2),
  ((2, 6, 0), 0.213016970847183 * 10 ^ 1),
  ((2, 0, 4), 0.158408172766824 * 10 ^ 2),
  ((2, 0, 1), -0.331049154044839 * 10 ^ 4),
  ((3, 0, 4), -0.341251932441282 * 10 ^ 1),
  ((2, 1, 4), -0.316569643860730 * 10 ^ 2),
  ((3, 0, 1), 0.199459603073901 * 10 ^ 3),
  ((4, 0, 1), -0.547919133532887 * 10 ^ 2),
  ((2, 2, 4), 0.442040358308000 * 10 ^ 2),
  ((5, 0, 1), 0.360284195611086 * 10 ^ 2),
  ((2, 3, 4), -0.111282734326413 * 10 ^ 2),
  ((2, 1, 1), 0.729116529735046 * 10 ^ 3),
  ((2, 0, 5), -0.262480156590992 * 10 ^ 1),
  ((3, 1, 1), -0.175292041186547 * 10 ^ 3),
  ((2, 1, 5), 0.704658803315449 * 10 ^ 1),
  ((4, 1, 1), -0.226683558512829 * 10 ^ 2),
  ((2, 2, 5), -0.792001547211682 * 10 ^ 1)
]

/-- Saline part of the Gibbs energy of seawater in J/kg, embedding `gibbs.salt`.
Temperature in K, pressure in dbar, salinity in g/kg.  The Python loop groups the
table by (j, k), adds the distinguished logarithmic i = 1 contribution
`Gdict[(1, j, k)] * cxi ** 2 * log cxi` plus the plain `cxi ** i` contributions for
i = 2..7, and multiplies by `ctau ** j * cpi ** k`; in exact arithmetic this equals
the flat sum over the table list below. -/
noncomputable def salt (temperature pressure salinity : ℝ) : ℝ :=
  let pressure_Pa := pressure * (dbar_to_Pa : ℝ)
  let salinity_s := salinity * (salinity_to_salt : ℝ)
  let ctau := (temperature - (temperature_zero : ℝ)) / (temperature_st : ℝ)
  let cpi := (pressure_Pa - (pressure_n : ℝ)) / (pressure_st : ℝ)
  let cxi := Real.sqrt (salinity_s / (salinity_st : ℝ))
  let cxi2_lncxi := cxi ^ 2 * Real.log cxi
  (saltCoeffs.map (fun e =>
    e.2 * (if e.1.1 = 1 then cxi2_lncxi else cxi ^ e.1.1)
        * ctau ^ e.1.2.1 * cpi ^ e.1.2.2)).sum

/-- Gibbs energy of seawater in J/kg, embedding `gibbs.seawater` (whose second
parameter is named `pressure_Pa` in the source but, per its own docstring, holds
the pressure in dbar). -/
noncomputable def seawater (temperature pressure_Pa salinity : ℝ) : ℝ :=
  water temperature pressure_Pa + salt temperature pressure_Pa salinity

/-- Agreement with a reference value to 9 significant figures, mirroring the
repository tests' `sigfig` helper: with `f` the power of ten just above `|c|`,
rounding `x / f` to 9 decimal places returns `c / f` exactly when
`|x - c| <= f / (2 * 10^9)`. -/
def sigfig9 (x c f : ℝ) : Prop := |x - c| ≤ f / (2 * 10 ^ 9)

/-- First derivative of a two-argument Gibbs function with respect to temperature,
embedding `properties.dG_dT` = `jax.grad(gfunc)`.  The differentiation collaborator
is modelled as the exact derivative, per the spec's collaborator contract
(section 6). -/
noncomputable def dG_dT (g : ℝ → ℝ → ℝ) : ℝ → ℝ → ℝ := fun t p => deriv (fun x => g x p) t

/-- First derivative of a two-argument Gibbs function with respect to pressure
(the second positional argument, in dbar), embedding `properties.dG_dp` =
`jax.grad(gfunc, argnums=1)`. -/
noncomputable def dG_dp (g : ℝ → ℝ → ℝ) : ℝ → ℝ → ℝ := fun t p => deriv (fun x => g t x) p

/-- Mixed second derivative, embedding `properties.d2G_dTdp` =
`jax.grad(dG_dT(gfunc), argnums=1)`: first temperature, then pressure. -/
noncomputable def d2G_dTdp (g : ℝ → ℝ → ℝ) : ℝ → ℝ → ℝ :=
  fun t p => deriv (fun x => dG_dT g t x) p

/-- The opposite differentiation order (first pressure, then temperature), which
the source does not define but claim C10 compares against. -/
noncomputable def d2G_dpdT (g : ℝ → ℝ → ℝ) : ℝ → ℝ → ℝ :=
  fun t p => deriv (fun x => dG_dp g x p) t

/-- Density in kg/m^3, embedding `properties.density` for a two-argument Gibbs
function: `1.0 / dG_dp(gfunc)(*args)`. -/
noncomputable def density (g : ℝ → ℝ → ℝ) (t p : ℝ) : ℝ := 1 / dG_dp g t p

/-- First derivative of a three-argument Gibbs function with respect to salinity,
embedding `properties.dG_dS` = `jax.grad(gfunc, argnums=2)`. -/
noncomputable def dG_dS (g : ℝ → ℝ → ℝ → ℝ) : ℝ → ℝ → ℝ → ℝ :=
  fun t p s => deriv (fun x => g t p x) s

/-- Chemical potential of water, embedding `properties.chemical_potential_water`:
`gfunc(*args) - args[2] * dG_dS(gfunc)(*args)`. -/
noncomputable def chemical_potential_water (g : ℝ → ℝ → ℝ → ℝ) (t p s : ℝ) : ℝ :=
  g t p s - s * dG_dS g t p s

/-- Molality of seawater, embedding `properties.molality_seawater`. -/
noncomputable def molality_seawater (sal : ℝ) : ℝ := sal / ((1 - sal) * (salt_mass : ℝ))

/-- Osmotic coefficient exactly as the source computes it: the numerator calls
`chemical_potential_water(*args, gfunc=default)` with the module-level default
(the seawater Gibbs function), NOT the caller-supplied `gfunc`. -/
noncomputable def osmotic (gfunc : ℝ → ℝ → ℝ → ℝ) (t p s : ℝ) : ℝ :=
  -chemical_potential_water seawater t p s
    / (molality_seawater s * (gas_constant : ℝ) * t)

/-- Spec-side restatement for claim C9: the osmotic coefficient with the water
chemical potential computed from the caller-supplied Gibbs function. -/
noncomputable def osmotic_spec (gfunc : ℝ → ℝ → ℝ → ℝ) (t p s : ℝ) : ℝ :=
  -chemical_potential_water gfunc t p s
    / (molality_seawater s * (gas_constant : ℝ) * t)

/-- IEEE-754-style value domain, used for the one claim that hinges on
floating-point corner semantics (claim C5, the value of `0 ** 2 * log 0`):
real numbers extended with signed infinities and a NaN. -/
inductive FVal where
  | nan : FVal
  | ninf : FVal
  | pinf : FVal
  | fin : ℝ → FVal

/-- IEEE addition on `FVal`: NaN propagates, opposite infinities give NaN. -/
noncomputable def addF : FVal → FVal → FVal
  | .nan, _ => .nan
  | _, .nan => .nan
  | .pinf, .ninf => .nan
  | .ninf, .pinf => .nan
  | .pinf, _ => .pinf
  | _, .pinf => .pinf
  | .ninf, _ => .ninf
  | _, .ninf => .ninf
  | .fin a, .fin b => .fin (a + b)

/-- IEEE subtraction on `FVal`. -/
noncomputable def subF : FVal → FVal → FVal
  | .nan, _ => .nan
  | _, .nan => .nan
  | .pinf, .pinf => .nan
  | .ninf, .ninf => .nan
  | .pinf, _ => .pinf
  | _, .ninf => .pinf
  | .ninf, _ => .ninf
  | _, .pinf => .ninf
  | .fin a, .fin b => .fin (a - b)

/-- IEEE multiplication on `FVal`: NaN propagates, and crucially
`0 * (plus or minus infinity) = NaN` -- the rule behind claim C5. -/
noncomputable def mulF : FVal → FVal → FVal
  | .nan, _ => .nan
  | _, .nan => .nan
  | .pinf, .pinf => .pinf
  | .pinf, .ninf => .ninf
  | .ninf, .pinf => .ninf
  | .ninf, .ninf => .pinf
  | .pinf, .fin b => if 0 < b then .pinf else if b < 0 then .ninf else .nan
  | .fin a, .pinf => if 0 < a then .pinf else if a < 0 then .ninf else .nan
  | .ninf, .fin b => if 0 < b then .ninf else if b < 0 then .pinf else .nan
  | .fin a, .ninf => if 0 < a then .ninf else if a < 0 then .pinf else .nan
  | .fin a, .fin b => .fin (a * b)

/-- IEEE division on `FVal` (zeros unsigned: finite / 0 follows the +0 rule). -/
noncomputable def divF : FVal → FVal → FVal
  | .nan, _ => .nan
  | _, .nan => .nan
  | .pinf, .pinf => .nan
  | .pinf, .ninf => .nan
  | .ninf, .pinf => .nan
  | .ninf, .ninf => .nan
  | .pinf, .fin b => if 0 ≤ b then .pinf else .ninf
  | .ninf, .fin b => if 0 ≤ b then .ninf else .pinf
  | .fin _, .pinf => .fin 0
  | .fin _, .ninf => .fin 0
  | .fin a, .fin b =>
    if b = 0 then (if a = 0 then .nan else if 0 < a then .pinf else .ninf)
    else .fin (a / b)

/-- Natural-number power on `FVal` by repeated multiplication; `x ** 0 = 1`
including at `x = 0`, matching Python floats. -/
noncomputable def powF (x : FVal) : Nat → FVal
  | 0 => .fin 1
  | n + 1 => mulF (powF x n) x

/-- IEEE square root on `FVal` (`numpy.sqrt`): NaN for negative arguments. -/
noncomputable def sqrtF : FVal → FVal
  | .nan => .nan
  | .ninf => .nan
  | .pinf => .pinf
  | .fin a => if a < 0 then .nan else .fin (Real.sqrt a)

/-- IEEE logarithm on `FVal` (`numpy.log`): `log 0 = -infinity`, NaN for negative
arguments.  (Contrast Mathlib's junk value `Real.log 0 = 0`, which is why the
idealised real-valued `salt` cannot settle claim C5 faithfully.) -/
noncomputable def logF : FVal → FVal
  | .nan => .nan
  | .ninf => .nan
  | .pinf => .pinf
  | .fin a => if a < 0 then .nan else if a = 0 then .ninf else .fin (Real.log a)

/-- `gibbs.salt` re-embedded over the IEEE value domain `FVal`, with exactly the
same coefficient table, unit conversions, reductions and summation structure as
`salt`; `cxi2_lncxi` is the unguarded product `cxi ** 2 * log cxi` of the
source. -/
noncomputable def saltF (temperature pressure salinity : FVal) : FVal :=
  let pressure_Pa := mulF pressure (.fin ((dbar_to_Pa : ℚ) : ℝ))
  let salinity_s := mulF salinity (.fin ((salinity_to_salt : ℚ) : ℝ))
  let ctau := divF (subF temperature (.fin ((temperature_zero : ℚ) : ℝ)))
    (.fin ((temperature_st : ℚ) : ℝ))
  let cpi := divF (subF pressure_Pa (.fin ((pressure_n : ℚ) : ℝ)))
    (.fin ((pressure_st : ℚ) : ℝ))
  let cxi := sqrtF (divF salinity_s (.fin ((salinity_st : ℚ) : ℝ)))
  let cxi2_lncxi := mulF (powF cxi 2) (logF cxi)
  saltCoeffs.foldl (fun acc e =>
    addF acc (mulF (mulF (mulF (.fin e.2) (if e.1.1 = 1 then cxi2_lncxi else powF cxi e.1.1))
      (powF ctau e.1.2.1)) (powF cpi e.1.2.2))) (.fin 0)

/-- Error taxonomy for claim C8, following spec section 7: a clear
"argument not present" signal from the differentiator (jax raises a TypeError
naming the missing positional argument), a generic index error (Python
IndexError from `args[2]` on a 2-tuple), and a wrong-arity call of a Gibbs
function (Python TypeError for a missing positional argument). -/
inductive PyErr where
  | indexError
  | argumentNotPresent
  | arityMismatch
  deriving DecidableEq, Repr

/-- A Gibbs function together with its declared argument count, following the
spec's capability interface (section 9: "a fixed-arity pure evaluation entry
point plus a declared argument count (2 or 3)"). -/
structure GibbsFunction where
  arity : Nat
  eval : List ℝ → ℝ

/-- Calling a Gibbs function on a Python argument tuple: a wrong number of
positional arguments raises. -/
def callG (g : GibbsFunction) (args : List ℝ) : Except PyErr ℝ :=
  if args.length = g.arity then .ok (g.eval args) else .error .arityMismatch

/-- Python tuple indexing `args[i]`: out of range raises a generic IndexError. -/
def tupleGet (args : List ℝ) (i : Nat) : Except PyErr ℝ :=
  match args[i]? with
  | some v => .ok v
  | none => .error .indexError

/-- Modelled from the spec: calling `properties.dG_dS(gfunc)` =
`jax.grad(gfunc, argnums=2)` on an argument tuple.  jax validates `argnums`
against the number of positional arguments supplied and fails fast with a clear
"argument not present" TypeError when there are fewer than three -- this
validation lives in the external differentiation collaborator (spec sections
6 and 7), not under `src/`. -/
noncomputable def dG_dS_call (g : GibbsFunction) (args : List ℝ) : Except PyErr ℝ :=
  if h : 2 < args.length then
    .ok (deriv (fun s => g.eval (args.set 2 s)) (args.get ⟨2, h⟩))
  else .error .argumentNotPresent

/-- Modelled from the spec: calling `properties.dG_dp(gfunc)` =
`jax.grad(gfunc, argnums=1)` on an argument tuple. -/
noncomputable def dG_dp_call (g : GibbsFunction) (args : List ℝ) : Except PyErr ℝ :=
  if h : 1 < args.length then
    .ok (deriv (fun p => g.eval (args.set 1 p)) (args.get ⟨1, h⟩))
  else .error .argumentNotPresent

/-- Modelled from the spec: calling `properties.d2G_dSdp(gfunc)` =
`jax.grad(dG_dp(gfunc), argnums=2)` on an argument tuple. -/
noncomputable def d2G_dSdp_call (g : GibbsFunction) (args : List ℝ) : Except PyErr ℝ :=
  if h : 2 < args.length then
    .ok (deriv (fun s => deriv (fun p => g.eval ((args.set 2 s).set 1 p)) (args.getD 1 0))
          (args.get ⟨2, h⟩))
  else .error .argumentNotPresent

/-- `properties.chemical_potential_relative` with explicit error propagation:
`return dG_dS(gfunc)(*args)`. -/
noncomputable def chemical_potential_relative_c (g : GibbsFunction) (args : List ℝ) :
    Except PyErr ℝ :=
  dG_dS_call g args

/-- `properties.chemical_potential_water` with explicit error propagation, in
Python evaluation order: `gfunc(*args)` first, then the tuple access `args[2]`,
then the salinity derivative. -/
noncomputable def chemical_potential_water_c (g : GibbsFunction) (args : List ℝ) :
    Except PyErr ℝ := do
  let gv ← callG g args
  let s ← tupleGet args 2
  let dv ← dG_dS_call g args
  return gv - s * dv

/-- `properties.chemical_potential_salt` with explicit error propagation. -/
noncomputable def chemical_potential_salt_c (g : GibbsFunction) (args : List ℝ) :
    Except PyErr ℝ := do
  let gv ← callG g args
  let s ← tupleGet args 2
  let dv ← dG_dS_call g args
  return gv + (1 - s) * dv

/-- `properties.haline_contraction` with explicit error propagation: the
numerator `d2G_dSdp(gfunc)(*args)` is evaluated first. -/
noncomputable def haline_contraction_c (g : GibbsFunction) (args : List ℝ) :
    Except PyErr ℝ := do
  let n ← d2G_dSdp_call g args
  let d ← dG_dp_call g args
  return -n / d

/-- The module default `properties.default = gibbs.seawater` as a three-argument
`GibbsFunction`. -/
noncomputable def seawaterGF : GibbsFunction :=
  ⟨3, fun args => seawater (args.getD 0 0) (args.getD 1 0) (args.getD 2 0)⟩

/-- `gibbs.water` as a two-argument `GibbsFunction` (the "water-only" function of
claim C8). -/
noncomputable def waterGF : GibbsFunction :=
  ⟨2, fun args => water (args.getD 0 0) (args.getD 1 0)⟩

/-- `properties.osmotic` with explicit error propagation, in Python evaluation
order: the numerator `chemical_potential_water(*args, gfunc=default)` (with the
module default, as the source is written) is evaluated before the denominator
touches `args[2]`. -/
noncomputable def osmotic_c (gfunc : GibbsFunction) (args : List ℝ) : Except PyErr ℝ := do
  let cw ← chemical_potential_water_c seawaterGF args
  let s ← tupleGet args 2
  let t ← tupleGet args 0
  return -cw / (molality_seawater s * (gas_constant : ℝ) * t)

/-- Claim C1: for every temperature T (K) and pressure P (dbar), `gibbs_water`
is a total function (the embedding is a total function into the reals, so no
error can be raised) and returns the IAPWS-09 polynomial evaluated at the reduced
coordinates ctau = (T - 273.15) / 40 and cpi = (P * 10^4 - 101325) / 10^8, with
the fixed constants supplied by the Constants component: the code-side `water`
(written against the constants definitions) agrees everywhere with the spec-side
`gibbs_water_spec` (written from the spec's formulas alone). -/
theorem water_matches_spec_reduction (T P : ℝ) : water T P = gibbs_water_spec T P := by
  simp only [water, gibbs_water_spec]
  congr 1
  apply List.map_congr_left
  intro e _
  norm_num [dbar_to_Pa, temperature_zero, temperature_st, pressure_n, pressure_st]

/-- Claim C2: `gibbs_water` reproduces the three IAPWS-09 Table 6 check values to
9 significant figures: +0.101342743e3 J/kg at (273.15 K, 101325 Pa = 10.1325 dbar),
+0.977303868e5 J/kg at (273.15 K, 1e8 Pa = 1e4 dbar), and -0.116198898e5 J/kg at
(313.15 K, 101325 Pa). -/
theorem water_reference_values :
    sigfig9 (water 273.15 10.1325) (0.101342743 * 10 ^ 3) (10 ^ 3)
    ∧ sigfig9 (water 273.15 10000) (0.977303868 * 10 ^ 5) (10 ^ 5)
    ∧ sigfig9 (water 313.15 10.1325) (-0.116198898 * 10 ^ 5) (10 ^ 5) := by
  refine ⟨?_, ?_, ?_⟩ <;>
  · rw [sigfig9, abs_le]
    constructor <;>
      norm_num [water, waterCoeffs, dbar_to_Pa, temperature_zero, temperature_st,
        pressure_n, pressure_st]

/-- Claim C4: for every temperature, pressure and salinity, `gibbs_seawater` is
exactly the sum of `gibbs_water` and `gibbs_salt` at the unchanged arguments;
the source computes precisely this sum, so the identity holds definitionally. -/
theorem seawater_is_water_plus_salt (T P S : ℝ) :
    seawater T P S = water T P + salt T P S := rfl

/-- Claim C7: for every temperature T (K) and pressure P (dbar), with
P_Pa = P * 10^4: the overall flag is the conjunction of the two sub-flags, the
pressure flag holds iff 100 <= P_Pa <= 1e8 with both bounds inclusive (witnessed
at exactly 100 Pa, i.e. P = 1/100 dbar, and exactly 1e8 Pa, i.e. P = 1e4 dbar),
and the temperature flag holds iff 270.5 - P_Pa * 7.43e-8 < T <= 313.15.  The
function is total (never raises). -/
theorem validity_flags (T P : ℚ) :
    (validity T P).total = ((validity T P).temperature && (validity T P).pressure)
    ∧ ((validity T P).pressure = true ↔ 100 ≤ P * 10 ^ 4 ∧ P * 10 ^ 4 ≤ 10 ^ 8)
    ∧ ((validity T P).temperature = true ↔ 270.5 - P * 10 ^ 4 * 7.43e-8 < T ∧ T ≤ 313.15)
    ∧ (validity T (1 / 100)).pressure = true
    ∧ (validity T 10000).pressure = true := by
  refine ⟨rfl, ?_, ?_, ?_, ?_⟩ <;> simp [validity, dbar_to_Pa] <;> norm_num

/-- Rational lower and upper bounds for `log (7/8)`, from the Taylor series of
`log (1 - x)` at x = 1/8 with 13 terms. -/
lemma log_seven_eighths_bounds :
    -0.13353139262477 ≤ Real.log ((7:ℝ) / 8) ∧ Real.log ((7:ℝ) / 8) ≤ -0.13353139262424 := by
  have h : |(1 / 8 : ℝ)| < 1 := by rw [abs_lt]; norm_num
  have H := Real.abs_log_sub_add_sum_range_le h 13
  rw [abs_of_pos (by norm_num : (0:ℝ) < 1 / 8),
      show (1:ℝ) - 1 / 8 = 7 / 8 by norm_num, abs_le] at H
  norm_num [Finset.sum_range_succ] at H
  constructor <;> linarith [H.1, H.2]

/-- Rational lower and upper bounds for `sqrt (7/8)`. -/
lemma sqrt_seven_eighths_bounds :
    93541434669348 / 100000000000000 ≤ Real.sqrt ((7:ℝ) / 8)
    ∧ Real.sqrt ((7:ℝ) / 8) ≤ 93541434669358 / 100000000000000 := by
  constructor
  · rw [show (93541434669348 / 100000000000000 : ℝ)
        = Real.sqrt ((93541434669348 / 100000000000000) ^ 2) from
        (Real.sqrt_sq (by norm_num)).symm]
    exact Real.sqrt_le_sqrt (by norm_num)
  · rw [show (93541434669358 / 100000000000000 : ℝ)
        = Real.sqrt ((93541434669358 / 100000000000000) ^ 2) from
        (Real.sqrt_sq (by norm_num)).symm]
    exact Real.sqrt_le_sqrt (by norm_num)

/-- Rational lower and upper bounds for `log (1093750/439563)` (the reduced
salinity ratio at the IAPWS08 Table 8 check point with S = 0.1 kg/kg), via
`log 2` bounds and the Taylor series of `log (1 - x)` at x = 107312/546875. -/
lemma log_ratio_bounds :
    0.911586385816 ≤ Real.log ((1093750:ℝ) / 439563)
    ∧ Real.log ((1093750:ℝ) / 439563) ≤ 0.911586386379 := by
  have hsplit : Real.log ((1093750:ℝ) / 439563)
      = Real.log 2 + Real.log ((546875:ℝ) / 439563) := by
    rw [show (1093750:ℝ) / 439563 = 2 * (546875 / 439563) by norm_num,
      Real.log_mul (by norm_num) (by norm_num)]
  have hinv : Real.log ((546875:ℝ) / 439563) = -Real.log ((439563:ℝ) / 546875) := by
    rw [show (546875:ℝ) / 439563 = ((439563:ℝ) / 546875)⁻¹ by norm_num, Real.log_inv]
  have h : |(107312 / 546875 : ℝ)| < 1 := by rw [abs_lt]; norm_num
  have H := Real.abs_log_sub_add_sum_range_le h 14
  rw [abs_of_pos (by norm_num : (0:ℝ) < 107312 / 546875),
      show (1:ℝ) - 107312 / 546875 = 439563 / 546875 by norm_num, abs_le] at H
  norm_num [Finset.sum_range_succ] at H
  have h2lo := Real.log_two_gt_d9
  have h2hi := Real.log_two_lt_d9
  rw [hsplit, hinv]
  constructor <;> linarith [H.1, H.2]

/-- Rational lower and upper bounds for `sqrt (1093750/439563)`. -/
lemma sqrt_ratio_bounds :
    3154848177549 / 2000000000000 ≤ Real.sqrt ((1093750:ℝ) / 439563)
    ∧ Real.sqrt ((1093750:ℝ) / 439563) ≤ 3154848177551 / 2000000000000 := by
  constructor
  · rw [show (3154848177549 / 2000000000000 : ℝ)
        = Real.sqrt ((3154848177549 / 2000000000000) ^ 2) from
        (Real.sqrt_sq (by norm_num)).symm]
    exact Real.sqrt_le_sqrt (by norm_num)
  · rw [show (3154848177551 / 2000000000000 : ℝ)
        = Real.sqrt ((3154848177551 / 2000000000000) ^ 2) from
        (Real.sqrt_sq (by norm_num)).symm]
    exact Real.sqrt_le_sqrt (by norm_num)

set_option maxHeartbeats 1600000 in
/-- Closed form of `gibbs_salt` at the first IAPWS08 Table 8 check point
(273.15 K, 101325 Pa, 0.03516504 kg/kg): the reduced salinity ratio is exactly
7/8, and the series collapses (ctau = cpi = 0) to an exact rational combination of
`log (7/8)` and `sqrt (7/8)`. -/
lemma salt_closed_form_pt1 : salt 273.15 10.1325 35.16504
    = 1017242549096781 / 400000000000 * Real.log (7 / 8)
      + 1216479799193589 / 400000000000
      - 15342017680264392887 / 5120000000000000 * Real.sqrt (7 / 8) := by
  have h78 : (0:ℝ) ≤ 7 / 8 := by norm_num
  simp only [salt]
  rw [show (35.16504:ℝ) * ((salinity_to_salt : ℚ) : ℝ) / ((salinity_st : ℚ) : ℝ) = 7 / 8 by
        norm_num [salinity_to_salt, salinity_st, salinity_n],
      show ((273.15:ℝ) - ((temperature_zero : ℚ) : ℝ)) / ((temperature_st : ℚ) : ℝ) = 0 by
        norm_num [temperature_zero, temperature_st],
      show ((10.1325:ℝ) * ((dbar_to_Pa : ℚ) : ℝ) - ((pressure_n : ℚ) : ℝ)) / ((pressure_st : ℚ) : ℝ) = 0 by
        norm_num [dbar_to_Pa, pressure_n, pressure_st]]
  have hsq : Real.sqrt (7 / 8) ^ 2 = 7 / 8 := Real.sq_sqrt h78
  have hlg : Real.log (Real.sqrt (7 / 8)) = Real.log (7 / 8) / 2 := Real.log_sqrt h78
  generalize hL : Real.log ((7:ℝ) / 8) = L at hlg
  generalize hU : Real.sqrt ((7:ℝ) / 8) = u at hsq hlg
  have hu3 : u ^ 3 = 7 / 8 * u := by rw [show u ^ 3 = u ^ 2 * u from by ring, hsq]
  have hu4 : u ^ 4 = 49 / 64 := by
    rw [show u ^ 4 = (u ^ 2) ^ 2 from by ring, hsq]; norm_num
  have hu5 : u ^ 5 = 49 / 64 * u := by
    rw [show u ^ 5 = (u ^ 2) ^ 2 * u from by ring, hsq]; norm_num
  have hu6 : u ^ 6 = 343 / 512 := by
    rw [show u ^ 6 = (u ^ 2) ^ 3 from by ring, hsq]; norm_num
  have hu7 : u ^ 7 = 343 / 512 * u := by
    rw [show u ^ 7 = (u ^ 2) ^ 3 * u from by ring, hsq]; norm_num
  simp only [saltCoeffs, List.map_cons, List.map_nil, List.sum_cons, List.sum_nil]
  norm_num [hsq, hu3, hu4, hu5, hu6, hu7, hlg]
  ring_nf

set_option maxHeartbeats 1600000 in
/-- Closed form of `gibbs_salt` at the second IAPWS08 Table 8 check point
(353 K, 101325 Pa, 0.1 kg/kg): the reduced salinity ratio is exactly
1093750/439563 and ctau = 1597/800, cpi = 0. -/
lemma salt_closed_form_pt2 : salt 353 10.1325 100
    = 21033812620533109187 / 2250562560000000 * Real.log (1093750 / 439563)
      + 521174904045132606984188806277895582587392191481 / 14248963770469840343531520000000000000000000
      - 847099653463808596860883033908682188625853 / 44528011782718251073536000000000000000 * Real.sqrt (1093750 / 439563) := by
  have hr : (0:ℝ) ≤ 1093750 / 439563 := by norm_num
  simp only [salt]
  rw [show (100:ℝ) * ((salinity_to_salt : ℚ) : ℝ) / ((salinity_st : ℚ) : ℝ) = 1093750 / 439563 by
        norm_num [salinity_to_salt, salinity_st, salinity_n],
      show ((353:ℝ) - ((temperature_zero : ℚ) : ℝ)) / ((temperature_st : ℚ) : ℝ) = 1597 / 800 by
        norm_num [temperature_zero, temperature_st],
      show ((10.1325:ℝ) * ((dbar_to_Pa : ℚ) : ℝ) - ((pressure_n : ℚ) : ℝ)) / ((pressure_st : ℚ) : ℝ) = 0 by
        norm_num [dbar_to_Pa, pressure_n, pressure_st]]
  have hsq : Real.sqrt (1093750 / 439563) ^ 2 = 1093750 / 439563 := Real.sq_sqrt hr
  have hlg : Real.log (Real.sqrt (1093750 / 439563)) = Real.log (1093750 / 439563) / 2 :=
    Real.log_sqrt hr
  generalize hL : Real.log ((1093750:ℝ) / 439563) = L at hlg
  generalize hU : Real.sqrt ((1093750:ℝ) / 439563) = u at hsq hlg
  have hu3 : u ^ 3 = 1093750 / 439563 * u := by rw [show u ^ 3 = u ^ 2 * u from by ring, hsq]
  have hu4 : u ^ 4 = (1093750 / 439563 : ℝ) ^ 2 := by
    rw [show u ^ 4 = (u ^ 2) ^ 2 from by ring, hsq]
  have hu5 : u ^ 5 = (1093750 / 439563 : ℝ) ^ 2 * u := by
    rw [show u ^ 5 = (u ^ 2) ^ 2 * u from by ring, hsq]
  have hu6 : u ^ 6 = (1093750 / 439563 : ℝ) ^ 3 := by
    rw [show u ^ 6 = (u ^ 2) ^ 3 from by ring, hsq]
  have hu7 : u ^ 7 = (1093750 / 439563 : ℝ) ^ 3 * u := by
    rw [show u ^ 7 = (u ^ 2) ^ 3 * u from by ring, hsq]
  simp only [saltCoeffs, List.map_cons, List.map_nil, List.sum_cons, List.sum_nil]
  norm_num [hsq, hu3, hu4, hu5, hu6, hu7, hlg]
  ring_nf

set_option maxHeartbeats 1600000 in
/-- Closed form of `gibbs_salt` at the third IAPWS08 Table 8 check point
(273.15 K, 1e8 Pa, 0.03516504 kg/kg): ctau = 0 and cpi = 3995947/4000000. -/
lemma salt_closed_form_pt3 : salt 273.15 10000 35.16504
    = 1017242549096781 / 400000000000 * Real.log (7 / 8)
      + 17547166838976439432641856245405701420180463304587 / 51200000000000000000000000000000000000000000000
      - 285067427209069841009964957332498556528912247 / 102400000000000000000000000000000000000000 * Real.sqrt (7 / 8) := by
  have h78 : (0:ℝ) ≤ 7 / 8 := by norm_num
  simp only [salt]
  rw [show (35.16504:ℝ) * ((salinity_to_salt : ℚ) : ℝ) / ((salinity_st : ℚ) : ℝ) = 7 / 8 by
        norm_num [salinity_to_salt, salinity_st, salinity_n],
      show ((273.15:ℝ) - ((temperature_zero : ℚ) : ℝ)) / ((temperature_st : ℚ) : ℝ) = 0 by
        norm_num [temperature_zero, temperature_st],
      show ((10000:ℝ) * ((dbar_to_Pa : ℚ) : ℝ) - ((pressure_n : ℚ) : ℝ)) / ((pressure_st : ℚ) : ℝ) = 3995947 / 4000000 by
        norm_num [dbar_to_Pa, pressure_n, pressure_st]]
  have hsq : Real.sqrt (7 / 8) ^ 2 = 7 / 8 := Real.sq_sqrt h78
  have hlg : Real.log (Real.sqrt (7 / 8)) = Real.log (7 / 8) / 2 := Real.log_sqrt h78
  generalize hL : Real.log ((7:ℝ) / 8) = L at hlg
  generalize hU : Real.sqrt ((7:ℝ) / 8) = u at hsq hlg
  have hu3 : u ^ 3 = 7 / 8 * u := by rw [show u ^ 3 = u ^ 2 * u from by ring, hsq]
  have hu4 : u ^ 4 = 49 / 64 := by
    rw [show u ^ 4 = (u ^ 2) ^ 2 from by ring, hsq]; norm_num
  have hu5 : u ^ 5 = 49 / 64 * u := by
    rw [show u ^ 5 = (u ^ 2) ^ 2 * u from by ring, hsq]; norm_num
  have hu6 : u ^ 6 = 343 / 512 := by
    rw [show u ^ 6 = (u ^ 2) ^ 3 from by ring, hsq]; norm_num
  have hu7 : u ^ 7 = 343 / 512 * u := by
    rw [show u ^ 7 = (u ^ 2) ^ 3 * u from by ring, hsq]; norm_num
  simp only [saltCoeffs, List.map_cons, List.map_nil, List.sum_cons, List.sum_nil]
  norm_num [hsq, hu3, hu4, hu5, hu6, hu7, hlg]
  ring_nf

/-- Claim C3: `gibbs_salt` reproduces the three IAPWS-08 Table 8 check values to
9 significant figures: -0.101342742e3 J/kg at (273.15 K, 101325 Pa,
S = 0.03516504 kg/kg = 35.16504 g/kg), +0.150871740e5 J/kg at (353 K, 101325 Pa,
0.1 kg/kg), and -0.260093051e4 J/kg at (273.15 K, 1e8 Pa, 0.03516504 kg/kg). -/
theorem salt_reference_values :
    sigfig9 (salt 273.15 10.1325 35.16504) (-0.101342742 * 10 ^ 3) (10 ^ 3)
    ∧ sigfig9 (salt 353 10.1325 100) (0.150871740 * 10 ^ 5) (10 ^ 5)
    ∧ sigfig9 (salt 273.15 10000 35.16504) (-0.260093051 * 10 ^ 4) (10 ^ 4) := by
  obtain ⟨hL1, hL2⟩ := log_seven_eighths_bounds
  obtain ⟨hU1, hU2⟩ := sqrt_seven_eighths_bounds
  obtain ⟨hM1, hM2⟩ := log_ratio_bounds
  obtain ⟨hV1, hV2⟩ := sqrt_ratio_bounds
  refine ⟨?_, ?_, ?_⟩
  · rw [sigfig9, salt_closed_form_pt1, abs_le]
    constructor <;> linarith
  · rw [sigfig9, salt_closed_form_pt2, abs_le]
    constructor <;> linarith
  · rw [sigfig9, salt_closed_form_pt3, abs_le]
    constructor <;> linarith

/-- Derivative of the pressure-section of the water polynomial: for any
coefficient list, the map-sum in `gibbs.water` has, as a function of the pressure
argument (in dbar), the derivative obtained term by term. -/
lemma water_sum_hasDerivAt (l : List ((Nat × Nat) × ℝ)) (t p : ℝ) :
    HasDerivAt
      (fun x => (l.map (fun e =>
        e.2 * ((t - ((temperature_zero : ℚ) : ℝ)) / ((temperature_st : ℚ) : ℝ)) ^ e.1.1
            * ((x * ((dbar_to_Pa : ℚ) : ℝ) - ((pressure_n : ℚ) : ℝ)) / ((pressure_st : ℚ) : ℝ)) ^ e.1.2)).sum)
      ((l.map (fun e =>
        e.2 * ((t - ((temperature_zero : ℚ) : ℝ)) / ((temperature_st : ℚ) : ℝ)) ^ e.1.1
            * (e.1.2 * ((p * ((dbar_to_Pa : ℚ) : ℝ) - ((pressure_n : ℚ) : ℝ)) / ((pressure_st : ℚ) : ℝ)) ^ (e.1.2 - 1)
               * (((dbar_to_Pa : ℚ) : ℝ) / ((pressure_st : ℚ) : ℝ))))).sum) p := by
  induction l with
  | nil => simpa using hasDerivAt_const p (0:ℝ)
  | cons e l ih =>
    simp only [List.map_cons, List.sum_cons]
    have hu : HasDerivAt
        (fun x : ℝ => (x * ((dbar_to_Pa : ℚ) : ℝ) - ((pressure_n : ℚ) : ℝ)) / ((pressure_st : ℚ) : ℝ))
        (((dbar_to_Pa : ℚ) : ℝ) / ((pressure_st : ℚ) : ℝ)) p := by
      simpa using
        (((hasDerivAt_id p).mul_const (((dbar_to_Pa : ℚ) : ℝ))).sub_const
          (((pressure_n : ℚ) : ℝ))).div_const (((pressure_st : ℚ) : ℝ))
    exact ((hu.pow e.1.2).const_mul
      (e.2 * ((t - ((temperature_zero : ℚ) : ℝ)) / ((temperature_st : ℚ) : ℝ)) ^ e.1.1)).add ih

set_option maxHeartbeats 1600000 in
/-- At the IAPWS09 normal point (273.15 K, 10.1325 dbar) the pressure derivative
of `gibbs.water` (with respect to pressure in dbar) is exactly
10.0015695367145 J/(kg dbar). -/
lemma water_hasDerivAt_pt :
    HasDerivAt (water 273.15) (100015695367145 / 10000000000000) 10.1325 := by
  have h := water_sum_hasDerivAt waterCoeffs 273.15 10.1325
  have hval : ((waterCoeffs.map (fun e =>
      e.2 * (((273.15:ℝ) - ((temperature_zero : ℚ) : ℝ)) / ((temperature_st : ℚ) : ℝ)) ^ e.1.1
          * (e.1.2 * (((10.1325:ℝ) * ((dbar_to_Pa : ℚ) : ℝ) - ((pressure_n : ℚ) : ℝ)) / ((pressure_st : ℚ) : ℝ)) ^ (e.1.2 - 1)
             * (((dbar_to_Pa : ℚ) : ℝ) / ((pressure_st : ℚ) : ℝ))))).sum)
      = 100015695367145 / 10000000000000 := by
    norm_num [waterCoeffs, dbar_to_Pa, temperature_zero, temperature_st, pressure_n, pressure_st]
  rw [hval] at h
  exact h

/-- The exact value of the code's density of pure water at (273.15 K,
10.1325 dbar): the reciprocal of the per-dbar pressure derivative. -/
lemma density_water_pt :
    density water 273.15 10.1325 = 10000000000000 / 100015695367145 := by
  have hd : dG_dp water 273.15 10.1325 = 100015695367145 / 10000000000000 :=
    water_hasDerivAt_pt.deriv
  rw [density, hd]
  norm_num

/-- Claim C6 counterexample: `density` of pure water at (273.15 K, 101325 Pa =
10.1325 dbar) does NOT equal 0.999843086e3 kg/m^3 to 9 significant figures.  The
code divides by the derivative with respect to pressure in dbar, so it returns
about 0.0999843071, a factor 10^4 below any plausible density. -/
theorem density_reference_counterexample :
    ¬ sigfig9 (density water 273.15 10.1325) (0.999843086 * 10 ^ 3) (10 ^ 3) := by
  rw [density_water_pt, sigfig9, abs_le]
  intro h
  have := h.1
  norm_num at this

/-- Claim C6 amended: the code's density of pure water at (273.15 K, 10.1325 dbar)
is exactly `1 / 10.0015695367145 = 0.0999843071 kg/m^3` (the reciprocal of the
per-dbar derivative); rescaling by 10^4 (i.e. taking the derivative per Pa, as the
kg/m^3 formula requires) gives 0.999843071e3 kg/m^3 to 9 significant figures --
the IAPWS-09 value, which differs from the claimed 0.999843086e3 in the 8th
significant digit. -/
theorem density_water_normal_value :
    density water 273.15 10.1325 = 10000000000000 / 100015695367145
    ∧ sigfig9 (10 ^ 4 * density water 273.15 10.1325) (0.999843071 * 10 ^ 3) (10 ^ 3) := by
  refine ⟨density_water_pt, ?_⟩
  rw [density_water_pt, sigfig9, abs_le]
  constructor <;> norm_num

/-- The exact value of `gibbs.water` at the normal point: ctau = cpi = 0, so only
the (0, 0) coefficient survives. -/
lemma water_normal_value : water 273.15 10.1325 = 101342743139674 / 1000000000000 := by
  norm_num [water, waterCoeffs, dbar_to_Pa, temperature_zero, temperature_st,
    pressure_n, pressure_st]

/-- Claim C9: `osmotic` ignores the caller-supplied Gibbs function.  At
(273.15 K, 10.1325 dbar, 35.16504) with `gfunc = gibbs.salt`, the value the code
computes differs from the claimed formula (the one using the supplied `gfunc`) by
exactly `-water(273.15, 10.1325) / (molality(S) * R * T)`, which is nonzero; the
two agree only when the caller passes the default seawater function. -/
theorem osmotic_ignores_gfunc :
    osmotic salt 273.15 10.1325 35.16504 - osmotic_spec salt 273.15 10.1325 35.16504
      = -(water 273.15 10.1325)
        / (molality_seawater 35.16504 * (gas_constant : ℝ) * 273.15)
    ∧ osmotic salt 273.15 10.1325 35.16504 ≠ osmotic_spec salt 273.15 10.1325 35.16504 := by
  have hder : deriv (fun x => seawater 273.15 10.1325 x) 35.16504
      = deriv (fun x => salt 273.15 10.1325 x) 35.16504 := deriv_const_add _
  have hdiff : osmotic salt 273.15 10.1325 35.16504 - osmotic_spec salt 273.15 10.1325 35.16504
      = -(water 273.15 10.1325)
        / (molality_seawater 35.16504 * (gas_constant : ℝ) * 273.15) := by
    simp only [osmotic, osmotic_spec, chemical_potential_water, dG_dS, seawater]
    rw [show deriv (fun x => water 273.15 10.1325 + salt 273.15 10.1325 x) 35.16504
        = deriv (fun x => salt 273.15 10.1325 x) 35.16504 from deriv_const_add _]
    ring
  have hne : -(water 273.15 10.1325)
      / (molality_seawater 35.16504 * (gas_constant : ℝ) * 273.15) ≠ 0 := by
    rw [water_normal_value]
    norm_num [molality_seawater, salt_mass, gas_constant]
  exact ⟨hdiff, fun heq => hne (by rw [← hdiff, heq, sub_self])⟩

/-- Claim C10: for every twice continuously differentiable Gibbs function and
every point, the two orders of mixed differentiation agree:
`d2G_dTdp g = d/dP (d/dT g)` equals `d/dT (d/dP g)`.  This holds exactly (so in
particular to within any numerical tolerance). -/
theorem mixed_partials_commute (g : ℝ → ℝ → ℝ)
    (hg : ContDiff ℝ 2 (Function.uncurry g)) (t p : ℝ) :
    d2G_dTdp g t p = d2G_dpdT g t p := by
  have hdiff : Differentiable ℝ (Function.uncurry g) := hg.differentiable one_le_two
  have hfd : ContDiff ℝ 1 (fderiv ℝ (Function.uncurry g)) := hg.fderiv_right (by norm_num)
  have hT : ∀ a b : ℝ, dG_dT g a b = fderiv ℝ (Function.uncurry g) (a, b) (1, 0) := by
    intro a b
    have hline : HasDerivAt (fun x : ℝ => (x, b)) ((1:ℝ), (0:ℝ)) a :=
      (hasDerivAt_id a).prod (hasDerivAt_const a b)
    exact ((hdiff (a, b)).hasFDerivAt.comp_hasDerivAt a hline).deriv
  have hP : ∀ a b : ℝ, dG_dp g a b = fderiv ℝ (Function.uncurry g) (a, b) (0, 1) := by
    intro a b
    have hline : HasDerivAt (fun x : ℝ => (a, x)) ((0:ℝ), (1:ℝ)) b :=
      (hasDerivAt_const b a).prod (hasDerivAt_id b)
    exact ((hdiff (a, b)).hasFDerivAt.comp_hasDerivAt b hline).deriv
  have hT2 : d2G_dTdp g t p
      = fderiv ℝ (fderiv ℝ (Function.uncurry g)) (t, p) (0, 1) (1, 0) := by
    have he : (fun x : ℝ => dG_dT g t x)
        = fun x : ℝ => fderiv ℝ (Function.uncurry g) (t, x) (1, 0) := by
      funext x; exact hT t x
    show deriv (fun x : ℝ => dG_dT g t x) p = _
    rw [he]
    have hline : HasDerivAt (fun x : ℝ => ((t : ℝ), x)) ((0:ℝ), (1:ℝ)) p :=
      (hasDerivAt_const p t).prod (hasDerivAt_id p)
    have happ : HasFDerivAt (fun z : ℝ × ℝ => fderiv ℝ (Function.uncurry g) z ((1:ℝ), (0:ℝ)))
        ((ContinuousLinearMap.apply ℝ ℝ ((1:ℝ), (0:ℝ))).comp
          (fderiv ℝ (fderiv ℝ (Function.uncurry g)) (t, p))) (t, p) :=
      (ContinuousLinearMap.apply ℝ ℝ ((1:ℝ), (0:ℝ))).hasFDerivAt.comp (t, p)
        ((hfd.differentiable le_rfl) (t, p)).hasFDerivAt
    exact (happ.comp_hasDerivAt p hline).deriv
  have hP2 : d2G_dpdT g t p
      = fderiv ℝ (fderiv ℝ (Function.uncurry g)) (t, p) (1, 0) (0, 1) := by
    have he : (fun x : ℝ => dG_dp g x p)
        = fun x : ℝ => fderiv ℝ (Function.uncurry g) (x, p) (0, 1) := by
      funext x; exact hP x p
    show deriv (fun x : ℝ => dG_dp g x p) t = _
    rw [he]
    have hline : HasDerivAt (fun x : ℝ => (x, (p : ℝ))) ((1:ℝ), (0:ℝ)) t :=
      (hasDerivAt_id t).prod (hasDerivAt_const t p)
    have happ : HasFDerivAt (fun z : ℝ × ℝ => fderiv ℝ (Function.uncurry g) z ((0:ℝ), (1:ℝ)))
        ((ContinuousLinearMap.apply ℝ ℝ ((0:ℝ), (1:ℝ))).comp
          (fderiv ℝ (fderiv ℝ (Function.uncurry g)) (t, p))) (t, p) :=
      (ContinuousLinearMap.apply ℝ ℝ ((0:ℝ), (1:ℝ))).hasFDerivAt.comp (t, p)
        ((hfd.differentiable le_rfl) (t, p)).hasFDerivAt
    exact (happ.comp_hasDerivAt t hline).deriv
  have hsymm := (hg.contDiffAt (x := (t, p))).isSymmSndFDerivAt le_rfl
  rw [hT2, hP2]
  exact hsymm ((0:ℝ), (1:ℝ)) ((1:ℝ), (0:ℝ))

/-- Witness for claim C10 at the concrete Gibbs function g(t, p) = t * p and the
point (1, 1): the smoothness hypothesis holds and the mixed partials agree. -/
theorem mixed_partials_commute_witness :
    ContDiff ℝ 2 (Function.uncurry fun t p : ℝ => t * p)
    ∧ d2G_dTdp (fun t p : ℝ => t * p) 1 1 = d2G_dpdT (fun t p : ℝ => t * p) 1 1 :=
  ⟨contDiff_fst.mul contDiff_snd,
    mixed_partials_commute (fun t p : ℝ => t * p) (contDiff_fst.mul contDiff_snd) 1 1⟩

/-- NaN absorbs on the left of IEEE addition. -/
lemma addF_nan_left (y : FVal) : addF .nan y = .nan := by cases y <;> rfl

/-- NaN absorbs on the right of IEEE addition. -/
lemma addF_nan_right (x : FVal) : addF x .nan = .nan := by cases x <;> rfl

/-- NaN absorbs on the left of IEEE multiplication. -/
lemma mulF_nan_left (y : FVal) : mulF .nan y = .nan := by cases y <;> rfl

/-- NaN absorbs on the right of IEEE multiplication. -/
lemma mulF_nan_right (x : FVal) : mulF x .nan = .nan := by cases x <;> rfl

/-- Finite IEEE multiplication agrees with real multiplication. -/
lemma mulF_fin (a b : ℝ) : mulF (.fin a) (.fin b) = .fin (a * b) := rfl

/-- Finite IEEE division by a nonzero value agrees with real division. -/
lemma divF_fin (a b : ℝ) (hb : b ≠ 0) : divF (.fin a) (.fin b) = .fin (a / b) := by
  simp [divF, hb]

/-- IEEE square root of a nonnegative finite value. -/
lemma sqrtF_fin (a : ℝ) (h : 0 ≤ a) : sqrtF (.fin a) = .fin (Real.sqrt a) := by
  simp [sqrtF, not_lt.mpr h]

/-- IEEE logarithm of zero is negative infinity. -/
lemma logF_fin_zero : logF (.fin 0) = .ninf := by simp [logF]

/-- IEEE powers of finite values agree with real powers. -/
lemma powF_fin (a : ℝ) (n : Nat) : powF (.fin a) n = .fin (a ^ n) := by
  induction n with
  | zero => simp [powF]
  | succ n ih => rw [powF, ih, mulF_fin, pow_succ]

/-- The IEEE rule at the heart of claim C5: `0 * (-infinity) = NaN`. -/
lemma mulF_fin_zero_ninf : mulF (.fin 0) .ninf = .nan := by simp [mulF]

/-- A left fold of IEEE additions started from NaN stays NaN. -/
lemma foldl_addF_from_nan {α : Type} (f : α → FVal) (l : List α) :
    l.foldl (fun acc e => addF acc (f e)) .nan = .nan := by
  induction l with
  | nil => rfl
  | cons x xs ih => rw [List.foldl_cons, addF_nan_left, ih]

/-- A left fold of IEEE additions is NaN as soon as any summand is NaN. -/
lemma foldl_addF_of_mem {α : Type} (f : α → FVal) (l : List α) (init : FVal)
    (a : α) (ha : a ∈ l) (hfa : f a = .nan) :
    l.foldl (fun acc e => addF acc (f e)) init = .nan := by
  induction l generalizing init with
  | nil => cases ha
  | cons x xs ih =>
    rw [List.foldl_cons]
    rcases List.mem_cons.mp ha with h | h
    · rw [h] at hfa
      rw [hfa, addF_nan_right, foldl_addF_from_nan]
    · exact ih _ h

/-- Core of claim C5: at salinity exactly zero, the IEEE evaluation of
`gibbs.salt` yields NaN for every (finite) temperature and pressure: `cxi = 0`,
`log cxi = -infinity`, the unguarded `cxi ** 2 * log cxi = 0 * (-infinity) = NaN`,
and the NaN propagates through the (1, 0, 0) term into the total. -/
lemma saltF_zero_nan (t p : ℝ) : saltF (.fin t) (.fin p) (.fin 0) = .nan := by
  have hs2 : ((salinity_st : ℚ) : ℝ) ≠ 0 := by norm_num [salinity_st, salinity_n]
  simp only [saltF]
  rw [mulF_fin, show (0:ℝ) * ((salinity_to_salt : ℚ) : ℝ) = 0 from zero_mul _,
      divF_fin 0 _ hs2, zero_div, sqrtF_fin 0 le_rfl, Real.sqrt_zero,
      powF_fin, show (0:ℝ) ^ 2 = 0 from by norm_num, logF_fin_zero, mulF_fin_zero_ninf]
  exact foldl_addF_of_mem _ _ _ ((1, 0, 0), (0.581281456626732 * 10 ^ 4 : ℝ))
    (by simp [saltCoeffs])
    (by norm_num [mulF_nan_left, mulF_nan_right])

/-- Claim C5 counterexample: `gibbs_salt(273.15, 10.1325 dbar, 0)` is NOT 0 --
under the floating-point semantics the code actually runs (no special case for
the `cxi ** 2 * log cxi` term), it is NaN. -/
theorem salt_zero_salinity_counterexample :
    saltF (.fin 273.15) (.fin 10.1325) (.fin 0) ≠ .fin 0 := by
  rw [saltF_zero_nan]
  intro h
  exact FVal.noConfusion h

/-- Claim C5 amended: for every (finite) temperature and pressure,
`gibbs_salt(T, P, 0)` evaluates to NaN, because the source computes the
logarithmic term as the unguarded product `cxi ** 2 * numpy.log(cxi)` which is
`0 * (-infinity) = NaN` at zero salinity. -/
theorem salt_zero_salinity_is_nan (t p : ℝ) :
    saltF (.fin t) (.fin p) (.fin 0) = .nan :=
  saltF_zero_nan t p

/-- Claim C8 counterexample: requesting the water chemical potential (a property
that needs a salinity derivative) against the two-argument water-only Gibbs
function fails with the generic tuple IndexError raised by `args[2]`, not with
the differentiator's clear "argument not present" signal -- `gfunc(*args)`
succeeds and `args[2]` is evaluated before `dG_dS` is ever called. -/
theorem salinity_derivative_counterexample :
    chemical_potential_water_c waterGF [273.15, 10.1325] = .error .indexError
    ∧ PyErr.indexError ≠ PyErr.argumentNotPresent := by
  constructor
  · simp [chemical_potential_water_c, callG, waterGF, tupleGet, bind, Except.bind]
  · decide

/-- Claim C8 amended: with a two-argument Gibbs function and a two-element
argument tuple, only the relative chemical potential and the haline contraction
fail with the differentiator's clear "argument not present" signal; the water and
salt chemical potentials fail earlier with the generic tuple IndexError from
`args[2]`, and the osmotic coefficient fails inside its hard-wired call of the
default three-argument seawater function with a wrong-arity TypeError. -/
theorem salinity_derivative_errors (g : GibbsFunction) (t p : ℝ) (h : g.arity = 2) :
    chemical_potential_relative_c g [t, p] = .error .argumentNotPresent
    ∧ haline_contraction_c g [t, p] = .error .argumentNotPresent
    ∧ chemical_potential_water_c g [t, p] = .error .indexError
    ∧ chemical_potential_salt_c g [t, p] = .error .indexError
    ∧ osmotic_c g [t, p] = .error .arityMismatch := by
  refine ⟨?_, ?_, ?_, ?_, ?_⟩
  · simp [chemical_potential_relative_c, dG_dS_call]
  · simp [haline_contraction_c, d2G_dSdp_call, bind, Except.bind]
  · simp [chemical_potential_water_c, callG, h, tupleGet, bind, Except.bind]
  · simp [chemical_potential_salt_c, callG, h, tupleGet, bind, Except.bind]
  · simp [osmotic_c, chemical_potential_water_c, callG, seawaterGF, bind, Except.bind]

/-- Witness for the amended claim C8 at the concrete water-only Gibbs function
and the state point (273.15 K, 10.1325 dbar). -/
theorem salinity_derivative_errors_witness :
    waterGF.arity = 2
    ∧ chemical_potential_relative_c waterGF [273.15, 10.1325] = .error .argumentNotPresent :=
  ⟨rfl, (salinity_derivative_errors waterGF 273.15 10.1325 rfl).1⟩

end Teos10
